import Mathlib

/-!
Shallow embedding of the exercise-tracker HTTP API (src/index.js).

The source is a thin Express + Mongoose layer with two collections
(users, exercises) and four operations: list users, create user,
create an exercise for a user, and query a filtered exercise log.

Modelling conventions:
- The document store is a `DB` value threaded explicitly; storage-assigned
  opaque ids are modelled by a fresh-id counter `nextId` (MongoDB assigns
  a unique ObjectId on insert; only freshness/uniqueness matters here).
- JavaScript `Date` values are modelled as integers counting days since
  the Unix epoch: `new Date(0)` is day 0, dates before 1970 are negative,
  and the `$gte`/`$lte` comparisons of the Mongo filter are integer
  comparisons. `new Date()` (the current time) is passed in as a `now`
  parameter to each handler that evaluates it.
- `Date.prototype.toDateString` is embedded by the standard civil-from-days
  calendar algorithm, producing the same "Sun Jan 01 2023" shape.
- Express `res.json(body)` sends the body with the default HTTP status 200
  (no handler in the source ever sets an explicit status); it is modelled
  by `resJson`, which records the status alongside the body.
- A fallible `save()` is modelled by a `SaveOutcome` parameter standing for
  whether the storage adapter accepts the insert.
-/

namespace ExerciseTracker

/-- A stored User document (`userSchema`: a required `username`; the id is
storage-assigned). -/
structure UserDoc where
  id : Nat
  username : String
deriving DecidableEq

/-- A stored Exercise document (`exerciseSchema`: required `username`,
`description`, `duration`, `date`; the id is storage-assigned). -/
structure ExerciseDoc where
  id : Nat
  username : String
  description : String
  duration : Int
  date : Int
deriving DecidableEq

/-- The document store: the two collections plus the fresh-id counter used
to model storage-assigned ids. -/
structure DB where
  users : List UserDoc
  exercises : List ExerciseDoc
  nextId : Nat
deriving DecidableEq

/-- An HTTP response: status code and JSON body. -/
structure Response (α : Type) where
  status : Nat
  body : α
deriving DecidableEq

/-- `res.json(body)`: Express sends the body with the default status 200. -/
def resJson {α : Type} (body : α) : Response α :=
  ⟨200, body⟩

/-- The value a Mongoose query can resolve to, as seen by a JavaScript
truthiness test: `null`, `undefined`, or an array of documents. -/
inductive FindResult where
  | null
  | undefined
  | arr (docs : List UserDoc)
deriving DecidableEq

/-- JavaScript truthiness on a query result: `null` and `undefined` are
falsy; any object, an array included (even an empty one), is truthy. -/
def jsTruthy : FindResult → Bool
  | .null => false
  | .undefined => false
  | .arr _ => true

/-- `User.find({})`: resolves to the array of all user documents (possibly
empty), never to `null` or `undefined`. -/
def userFind (db : DB) : FindResult :=
  .arr db.users

/-- `User.findById(id)`: the stored user with the given id, if any. -/
def findById (db : DB) (uid : Nat) : Option UserDoc :=
  db.users.find? (fun u => u.id == uid)

/-- Body of the GET `/api/users` response: either the serialized query
result or the (unreachable) error payload. -/
inductive UsersBody where
  | value (v : FindResult)
  | error (msg : String)
deriving DecidableEq

/-- Body of the POST `/api/users` response. -/
inductive CreateUserBody where
  | ok (username : String) (id : Nat)
  | error (msg : String)
deriving DecidableEq

/-- Body of the POST `/api/users/:_id/exercises` response:
`{_id, username, description, duration, date}` on success. -/
inductive ExerciseBody where
  | ok (id : Nat) (username : String) (description : String)
      (duration : Int) (date : String)
  | error (msg : String)
deriving DecidableEq

/-- One entry of the returned log: only `description`, `duration` and the
rendered `date` (no id field). -/
structure LogEntry where
  description : String
  duration : Int
  date : String
deriving DecidableEq

/-- Body of the GET `/api/users/:_id/logs` response:
`{_id, username, count, log}` on success. -/
inductive LogsBody where
  | ok (id : Nat) (username : String) (count : Nat) (log : List LogEntry)
  | error (msg : String)
deriving DecidableEq

/-- Whether `userDoc.save()` / the storage insert succeeds. -/
inductive SaveOutcome where
  | ok
  | fail
deriving DecidableEq

/-! ## Date rendering (`Date.prototype.toDateString`) -/

/-- Three-letter weekday name, indexed with 0 = Sunday. -/
def dayName : Nat → String
  | 0 => "Sun" | 1 => "Mon" | 2 => "Tue" | 3 => "Wed"
  | 4 => "Thu" | 5 => "Fri" | _ => "Sat"

/-- Three-letter month name, indexed with 1 = January. -/
def monthName : Nat → String
  | 1 => "Jan" | 2 => "Feb" | 3 => "Mar" | 4 => "Apr"
  | 5 => "May" | 6 => "Jun" | 7 => "Jul" | 8 => "Aug"
  | 9 => "Sep" | 10 => "Oct" | 11 => "Nov" | _ => "Dec"

/-- Zero-padded two-digit rendering of a day of month. -/
def pad2 (n : Nat) : String :=
  if n < 10 then "0" ++ toString n else toString n

/-- Civil calendar date (year, month, day) of a day count since the Unix
epoch: the standard era-based civil-from-days algorithm. -/
def civilFromDays (z : Int) : Int × Nat × Nat :=
  let shifted := z + 719468
  let era : Int := shifted.fdiv 146097
  let doe : Nat := (shifted - era * 146097).toNat
  let yoe : Nat := (doe - doe / 1460 + doe / 36524 - doe / 146096) / 365
  let doy : Nat := doe - (365 * yoe + yoe / 4 - yoe / 100)
  let mp : Nat := (5 * doy + 2) / 153
  let d : Nat := doy - (153 * mp + 2) / 5 + 1
  let m : Nat := if mp < 10 then mp + 3 else mp - 9
  ((yoe : Int) + era * 400 + (if m ≤ 2 then 1 else 0), m, d)

/-- `date.toDateString()`: e.g. day 19358 renders as "Sun Jan 01 2023".
Day 0 (the epoch, 1970-01-01) was a Thursday, hence the +4 shift. -/
def toDateString (z : Int) : String :=
  match civilFromDays z with
  | (y, m, d) =>
    dayName ((z + 4).emod 7).toNat ++ " " ++ monthName m ++ " " ++
      pad2 d ++ " " ++ toString y

/-! ## Route handlers -/

/-- GET `/api/users` (`getUsers`): fetch every user; the source guards the
result with `if (!users)` before serializing it. -/
def getUsers (db : DB) : Response UsersBody :=
  let users := userFind db
  if jsTruthy users then resJson (.value users)
  else resJson (.error "No users found")

/-- POST `/api/users` (`createUser`): insert a new user with the supplied
username (no uniqueness check); on success respond
`{username, _id}`, on storage failure respond the error payload. -/
def createUser (db : DB) (username : String) (outcome : SaveOutcome) :
    DB × Response CreateUserBody :=
  match outcome with
  | .ok =>
    let u : UserDoc := ⟨db.nextId, username⟩
    (⟨db.users ++ [u], db.exercises, db.nextId + 1⟩,
      resJson (.ok u.username u.id))
  | .fail => (db, resJson (.error "Failed to create user"))

/-- POST `/api/users/:_id/exercises`: look up the user; if absent respond
`{error: "User not found"}`; otherwise insert an Exercise carrying the
found username and respond with the user id, username, and the saved
exercise fields, the date rendered by `toDateString`. The body date
defaults to `new Date()` (`now`) when absent. -/
def postExercise (db : DB) (uid : Nat) (description : String)
    (duration : Int) (dateParam : Option Int) (now : Int) :
    DB × Response ExerciseBody :=
  let date := dateParam.getD now
  match findById db uid with
  | none => (db, resJson (.error "User not found"))
  | some user =>
    let ex : ExerciseDoc := ⟨db.nextId, user.username, description, duration, date⟩
    (⟨db.users, db.exercises ++ [ex], db.nextId + 1⟩,
      resJson (.ok user.id user.username ex.description ex.duration
        (toDateString ex.date)))

/-- The Mongo search filter of the logs route: username equality together
with `date: {$gte: from, $lte: to}`. -/
def logFilter (uname : String) (fromDate toDate : Int) (e : ExerciseDoc) : Bool :=
  e.username == uname && decide (fromDate ≤ e.date) && decide (e.date ≤ toDate)

/-- `Exercise.find(searchFilter)`: the stored exercises matching the filter,
in storage order. -/
def matchedExercises (db : DB) (uname : String) (fromDate toDate : Int) :
    List ExerciseDoc :=
  db.exercises.filter (logFilter uname fromDate toDate)

/-- The projection the logs route applies to each matched exercise:
`{description, duration, date: date.toDateString()}`. -/
def logEntryOf (e : ExerciseDoc) : LogEntry :=
  ⟨e.description, e.duration, toDateString e.date⟩

/-- GET `/api/users/:_id/logs`: `from` defaults to `new Date(0)` (day 0),
`to` defaults to `new Date()` (`now`), `limit` defaults to 0. Look up the
user; if absent respond `{error: "User not found"}`; otherwise fetch the
matching exercises, set `count` to their number, and return the projected
log, truncated by `log.slice(0, limit)` only when `limit > 0`. -/
def getLogs (db : DB) (uid : Nat) (fromQ toQ limitQ : Option Int)
    (now : Int) : Response LogsBody :=
  let fromDate := fromQ.getD 0
  let toDate := toQ.getD now
  let limit := limitQ.getD 0
  match findById db uid with
  | none => resJson (.error "User not found")
  | some user =>
    let exercises := matchedExercises db user.username fromDate toDate
    let fullLog := exercises.map logEntryOf
    resJson (.ok user.id user.username exercises.length
      (if 0 < limit then fullLog.take limit.toNat else fullLog))

/-! ## A uniform view of the four operations on the store -/

/-- One API call with its inputs. -/
inductive ApiCall where
  | listUsers
  | newUser (username : String) (outcome : SaveOutcome)
  | newExercise (uid : Nat) (description : String) (duration : Int)
      (dateParam : Option Int) (now : Int)
  | logsQuery (uid : Nat) (fromQ toQ limitQ : Option Int) (now : Int)

/-- The store after an API call. The two GET handlers only run find
operations and return a response computed from the store, so the store is
unchanged; the two POST handlers return their updated store. -/
def applyCall (c : ApiCall) (db : DB) : DB :=
  match c with
  | .listUsers => (db, getUsers db).1
  | .newUser username outcome => (createUser db username outcome).1
  | .newExercise uid description duration dateParam now =>
    (postExercise db uid description duration dateParam now).1
  | .logsQuery uid fromQ toQ limitQ now =>
    (db, getLogs db uid fromQ toQ limitQ now).1

/-- Well-formedness of the store: every storage-assigned id is below the
fresh-id counter (so a fresh id differs from every stored id). -/
def dbWf (db : DB) : Prop :=
  (∀ u ∈ db.users, u.id < db.nextId) ∧ ∀ e ∈ db.exercises, e.id < db.nextId

/-! ## Concrete stores used as witnesses -/

/-- A demo user. -/
def demoUser : UserDoc := ⟨1, "alice"⟩

/-- A demo store: one user and three of her exercises, dated days 10, 20
and 30. -/
def demoDB : DB :=
  ⟨[demoUser],
   [⟨2, "alice", "a", 1, 10⟩, ⟨3, "alice", "b", 2, 20⟩, ⟨4, "alice", "c", 3, 30⟩],
   5⟩

/-- A store holding one user and one exercise dated before the Unix epoch
(day -1, that is 1969-12-31). -/
def earlyDB : DB :=
  ⟨[⟨0, "bob"⟩], [⟨1, "bob", "swim", 5, -1⟩], 2⟩

/-! ## Theorems -/

/-- A user returned by `findById` is a stored user carrying the queried id. -/
theorem findById_mem (db : DB) (uid : Nat) (user : UserDoc)
    (h : findById db uid = some user) : user ∈ db.users ∧ user.id = uid := by
  unfold findById at h
  exact ⟨List.mem_of_find?_eq_some h, by simpa using List.find?_some h⟩

/-- C9: listing users serializes the array returned by the find operation —
a truthy value even when empty — so the response is always the array of
stored users (in particular the empty array for an empty collection), and
the error branch of `getUsers` never produces the response. -/
theorem getUsers_always_array (db : DB) :
    getUsers db = resJson (.value (.arr db.users)) ∧
    getUsers ⟨[], db.exercises, db.nextId⟩ = resJson (.value (.arr [])) :=
  ⟨rfl, rfl⟩

/-- C6: a successful insert responds `{username, _id}` of the new record; a
failed insert leaves the store unchanged and responds exactly
`{error: "Failed to create user"}`; both responses carry HTTP status 200. -/
theorem create_user_result (db : DB) (username : String) :
    createUser db username SaveOutcome.ok =
      (⟨db.users ++ [⟨db.nextId, username⟩], db.exercises, db.nextId + 1⟩,
        resJson (.ok username db.nextId)) ∧
    createUser db username SaveOutcome.fail =
      (db, resJson (.error "Failed to create user")) ∧
    (createUser db username SaveOutcome.ok).2.status = 200 ∧
    (createUser db username SaveOutcome.fail).2.status = 200 :=
  ⟨rfl, rfl, rfl, rfl⟩

/-- C7: no uniqueness is enforced on usernames: two consecutive creations
with the same username both succeed, produce records with distinct
(increasing) ids, and both records are retrievable via the user listing. -/
theorem duplicate_usernames (db : DB) (username : String) :
    (createUser db username SaveOutcome.ok).2 =
      resJson (.ok username db.nextId) ∧
    (createUser (createUser db username SaveOutcome.ok).1 username
        SaveOutcome.ok).2 =
      resJson (.ok username (db.nextId + 1)) ∧
    db.nextId < db.nextId + 1 ∧
    (⟨db.nextId, username⟩ : UserDoc) ∈
      (createUser (createUser db username SaveOutcome.ok).1 username
        SaveOutcome.ok).1.users ∧
    (⟨db.nextId + 1, username⟩ : UserDoc) ∈
      (createUser (createUser db username SaveOutcome.ok).1 username
        SaveOutcome.ok).1.users ∧
    getUsers (createUser (createUser db username SaveOutcome.ok).1 username
        SaveOutcome.ok).1 =
      resJson (.value (.arr
        (db.users ++ [⟨db.nextId, username⟩] ++ [⟨db.nextId + 1, username⟩]))) := by
  refine ⟨rfl, rfl, Nat.lt_succ_self _, ?_, ?_, ?_⟩
  · simp [createUser]
  · simp [createUser]
  · simp [createUser, getUsers, userFind, jsTruthy]

/-- C8: no operation updates or deletes an existing document: after any of
the four API calls, the users and exercises lists are each either unchanged
or extended by a single appended document, and at most one document is
added in total. -/
theorem state_append_only (c : ApiCall) (db : DB) :
    ((applyCall c db).users = db.users ∨
      ∃ u, (applyCall c db).users = db.users ++ [u]) ∧
    ((applyCall c db).exercises = db.exercises ∨
      ∃ e, (applyCall c db).exercises = db.exercises ++ [e]) ∧
    (applyCall c db).users.length + (applyCall c db).exercises.length ≤
      db.users.length + db.exercises.length + 1 := by
  cases c with
  | listUsers => exact ⟨Or.inl rfl, Or.inl rfl, Nat.le_succ _⟩
  | newUser username outcome =>
    cases outcome with
    | ok =>
      refine ⟨Or.inr ⟨⟨db.nextId, username⟩, rfl⟩, Or.inl rfl, ?_⟩
      simp [applyCall, createUser]
      omega
    | fail => exact ⟨Or.inl rfl, Or.inl rfl, Nat.le_succ _⟩
  | newExercise uid description duration dateParam now =>
    cases h : findById db uid with
    | none =>
      refine ⟨?_, ?_, ?_⟩ <;> simp [applyCall, postExercise, h]
    | some user =>
      refine ⟨?_, ?_, ?_⟩ <;> simp [applyCall, postExercise, h]
      omega
  | logsQuery uid fromQ toQ limitQ now =>
    exact ⟨Or.inl rfl, Or.inl rfl, Nat.le_succ _⟩

/-- C1: on an existing user, the returned `count` is the number of
exercises matching the username-and-date filter BEFORE any truncation,
while the log carries min(limit, count) entries when limit > 0 and all
count entries when limit is 0 or absent. -/
theorem logs_count_before_truncation (db : DB) (uid : Nat)
    (fromQ toQ limitQ : Option Int) (now : Int) (user : UserDoc)
    (h : findById db uid = some user) :
    ∃ log : List LogEntry,
      getLogs db uid fromQ toQ limitQ now =
        resJson (.ok user.id user.username
          (matchedExercises db user.username (fromQ.getD 0) (toQ.getD now)).length
          log) ∧
      log.length =
        if 0 < limitQ.getD 0 then
          min (limitQ.getD 0).toNat
            (matchedExercises db user.username (fromQ.getD 0) (toQ.getD now)).length
        else
          (matchedExercises db user.username (fromQ.getD 0) (toQ.getD now)).length := by
  simp only [getLogs, h]
  refine ⟨_, rfl, ?_⟩
  split <;> simp

/-- C1 witness: in the demo store all three exercises match the default
bounds, and a query with limit 1 reports count 3 with a one-entry log. -/
theorem logs_count_before_truncation_witness :
    ∃ log : List LogEntry,
      getLogs demoDB 1 none none (some 1) 50 = resJson (.ok 1 "alice" 3 log) ∧
      log.length = 1 :=
  logs_count_before_truncation demoDB 1 none none (some 1) 50 demoUser rfl

/-- C2 counterexample: the default lower bound is `new Date(0)` (the Unix
epoch), not the earliest representable date: the store holds an exercise
whose username matches the queried user but whose date is day -1 (before
the epoch), and the log query with `from` absent reports count 0 and an
empty log — the exercise IS excluded by the default lower bound. -/
theorem logs_default_from_excludes_early :
    (ExerciseDoc.mk 1 "bob" "swim" 5 (-1)) ∈ earlyDB.exercises ∧
    findById earlyDB 0 = some ⟨0, "bob"⟩ ∧
    getLogs earlyDB 0 none none none 100 = resJson (.ok 0 "bob" 0 []) := by
  refine ⟨by decide, rfl, rfl⟩

/-- C2 amended: when `from` is absent the lower bound defaults to the Unix
epoch (day 0) and when `to` is absent the upper bound defaults to the
current time; under the default lower bound a stored exercise with the
queried username is considered exactly when its date is at or after the
epoch (and at or before the upper bound) — exercises dated before the
epoch are excluded. -/
theorem logs_default_bounds_epoch (db : DB) (uid : Nat)
    (toQ limitQ : Option Int) (now : Int) (uname : String)
    (e : ExerciseDoc) (he : e ∈ db.exercises) :
    getLogs db uid none toQ limitQ now =
      getLogs db uid (some 0) toQ limitQ now ∧
    (∀ fromQ : Option Int,
      getLogs db uid fromQ none limitQ now =
        getLogs db uid fromQ (some now) limitQ now) ∧
    (e ∈ matchedExercises db uname 0 (toQ.getD now) ↔
      e.username = uname ∧ 0 ≤ e.date ∧ e.date ≤ toQ.getD now) := by
  refine ⟨rfl, fun _ => rfl, ?_⟩
  simp [matchedExercises, logFilter, List.mem_filter, he, and_assoc]

/-- C2 amended witness: in the pre-epoch store, the exercise dated day -1
with matching username is not among the matched exercises of the default
bounds, by the amended characterisation. -/
theorem logs_default_bounds_epoch_witness :
    getLogs earlyDB 0 none (some 100) none 100 =
      getLogs earlyDB 0 (some 0) (some 100) none 100 ∧
    (∀ fromQ : Option Int,
      getLogs earlyDB 0 fromQ none none 100 =
        getLogs earlyDB 0 fromQ (some 100) none 100) ∧
    (ExerciseDoc.mk 1 "bob" "swim" 5 (-1) ∈ matchedExercises earlyDB "bob" 0 100 ↔
      (ExerciseDoc.mk 1 "bob" "swim" 5 (-1)).username = "bob" ∧
        (0 : Int) ≤ -1 ∧ (-1 : Int) ≤ 100) :=
  logs_default_bounds_epoch earlyDB 0 (some 100) none 100 "bob"
    (ExerciseDoc.mk 1 "bob" "swim" 5 (-1)) (by decide)

/-- C3: on an existing user the log query considers exactly the stored
exercises whose username equals the found username and whose date lies in
the closed interval from the lower to the upper bound; the unlimited
response is built from precisely that matched list. -/
theorem logs_considered_set (db : DB) (uid : Nat) (fromQ toQ : Option Int)
    (now : Int) (user : UserDoc) (h : findById db uid = some user) :
    getLogs db uid fromQ toQ none now =
      resJson (.ok user.id user.username
        (matchedExercises db user.username (fromQ.getD 0) (toQ.getD now)).length
        ((matchedExercises db user.username (fromQ.getD 0) (toQ.getD now)).map
          logEntryOf)) ∧
    ∀ e : ExerciseDoc,
      e ∈ matchedExercises db user.username (fromQ.getD 0) (toQ.getD now) ↔
        e ∈ db.exercises ∧ e.username = user.username ∧
          fromQ.getD 0 ≤ e.date ∧ e.date ≤ toQ.getD now := by
  constructor
  · simp only [getLogs, h]
    rfl
  · intro e
    simp [matchedExercises, logFilter, List.mem_filter, and_assoc]

/-- C3 witness: with bounds [15, 25] only the exercise dated day 20
matches in the demo store. -/
theorem logs_considered_set_witness :
    getLogs demoDB 1 (some 15) (some 25) none 50 =
      resJson (.ok 1 "alice"
        (matchedExercises demoDB "alice" 15 25).length
        ((matchedExercises demoDB "alice" 15 25).map logEntryOf)) ∧
    ∀ e : ExerciseDoc,
      e ∈ matchedExercises demoDB "alice" 15 25 ↔
        e ∈ demoDB.exercises ∧ e.username = "alice" ∧
          (15 : Int) ≤ e.date ∧ e.date ≤ 25 :=
  logs_considered_set demoDB 1 (some 15) (some 25) 50 demoUser rfl

/-- C4: when the user id resolves to no stored user, the exercise-creation
endpoint and the log-query endpoint both respond with the body-level
payload `{error: "User not found"}` at HTTP status 200, and the store is
unchanged (no document is created). -/
theorem user_not_found (db : DB) (uid : Nat) (description : String)
    (duration : Int) (dateParam : Option Int) (now : Int)
    (fromQ toQ limitQ : Option Int) (h : findById db uid = none) :
    postExercise db uid description duration dateParam now =
      (db, resJson (.error "User not found")) ∧
    getLogs db uid fromQ toQ limitQ now =
      resJson (.error "User not found") ∧
    (postExercise db uid description duration dateParam now).2.status = 200 ∧
    (getLogs db uid fromQ toQ limitQ now).status = 200 := by
  refine ⟨?_, ?_, ?_, ?_⟩ <;> simp [postExercise, getLogs, h, resJson]

/-- C4 witness: id 99 resolves to no user in the demo store, and both
endpoints answer with the not-found payload at status 200. -/
theorem user_not_found_witness :
    postExercise demoDB 99 "run" 30 none 50 =
      (demoDB, resJson (.error "User not found")) ∧
    getLogs demoDB 99 none none none 50 =
      resJson (.error "User not found") ∧
    (postExercise demoDB 99 "run" 30 none 50).2.status = 200 ∧
    (getLogs demoDB 99 none none none 50).status = 200 :=
  user_not_found demoDB 99 "run" 30 none 50 none none none rfl

/-- C5: creating an exercise for an existing user responds with the owning
username, the supplied description and duration, and the date rendered by
`toDateString`; when the body date is absent, both the stored and the
returned date default to the current date `now`. -/
theorem create_exercise_response (db : DB) (uid : Nat) (user : UserDoc)
    (description : String) (duration : Int) (d now : Int)
    (h : findById db uid = some user) :
    (postExercise db uid description duration (some d) now).2 =
      resJson (.ok user.id user.username description duration (toDateString d)) ∧
    (postExercise db uid description duration none now).2 =
      resJson (.ok user.id user.username description duration (toDateString now)) ∧
    (postExercise db uid description duration none now).1.exercises =
      db.exercises ++
        [ExerciseDoc.mk db.nextId user.username description duration now] := by
  refine ⟨?_, ?_, ?_⟩ <;> simp [postExercise, h]

/-- C5 witness: day 19358 is 2023-01-01, rendered "Sun Jan 01 2023"; with
the date absent, the stored exercise carries the current date (day 50). -/
theorem create_exercise_response_witness :
    (postExercise demoDB 1 "run" 30 (some 19358) 50).2 =
      resJson (.ok 1 "alice" "run" 30 "Sun Jan 01 2023") ∧
    (postExercise demoDB 1 "run" 30 none 50).2 =
      resJson (.ok 1 "alice" "run" 30 (toDateString 50)) ∧
    (postExercise demoDB 1 "run" 30 none 50).1.exercises =
      demoDB.exercises ++ [ExerciseDoc.mk 5 "alice" "run" 30 50] :=
  create_exercise_response demoDB 1 demoUser "run" 30 19358 50 rfl

/-- C10: the `_id` of a successful exercise-creation response is the id of
the owning user document, while the exercise document itself receives a
strictly larger (hence different) storage id that the response never
carries; log entries expose only description, duration and rendered date,
each the projection of a matched exercise. -/
theorem exercise_id_not_exposed (db : DB) (uid : Nat) (user : UserDoc)
    (description : String) (duration : Int) (dateParam : Option Int)
    (now : Int) (hwf : dbWf db) (h : findById db uid = some user) :
    ∃ ex : ExerciseDoc,
      (postExercise db uid description duration dateParam now).1.exercises =
        db.exercises ++ [ex] ∧
      (postExercise db uid description duration dateParam now).2 =
        resJson (.ok user.id user.username ex.description ex.duration
          (toDateString ex.date)) ∧
      user.id < ex.id ∧
      ∀ fromQ toQ : Option Int, ∃ log : List LogEntry,
        getLogs db uid fromQ toQ none now =
          resJson (.ok user.id user.username
            (matchedExercises db user.username (fromQ.getD 0) (toQ.getD now)).length
            log) ∧
        ∀ entry ∈ log,
          ∃ e ∈ matchedExercises db user.username (fromQ.getD 0) (toQ.getD now),
            entry = logEntryOf e := by
  refine ⟨⟨db.nextId, user.username, description, duration, dateParam.getD now⟩,
    ?_, ?_, ?_, ?_⟩
  · simp [postExercise, h]
  · simp [postExercise, h]
  · exact hwf.1 user (findById_mem db uid user h).1
  · intro fromQ toQ
    refine ⟨(matchedExercises db user.username (fromQ.getD 0) (toQ.getD now)).map
      logEntryOf, ?_, ?_⟩
    · simp only [getLogs, h]
      rfl
    · intro entry hentry
      rcases List.mem_map.mp hentry with ⟨e, he, rfl⟩
      exact ⟨e, he, rfl⟩

/-- C10 witness: in the well-formed demo store, the new exercise receives
id 5 while the response carries the owner id 1, and every entry of the
default log is a three-field projection of a matched exercise. -/
theorem exercise_id_not_exposed_witness :
    ∃ ex : ExerciseDoc,
      (postExercise demoDB 1 "run" 30 none 50).1.exercises =
        demoDB.exercises ++ [ex] ∧
      (postExercise demoDB 1 "run" 30 none 50).2 =
        resJson (.ok 1 "alice" ex.description ex.duration
          (toDateString ex.date)) ∧
      (1 : Nat) < ex.id ∧
      ∀ fromQ toQ : Option Int, ∃ log : List LogEntry,
        getLogs demoDB 1 fromQ toQ none 50 =
          resJson (.ok 1 "alice"
            (matchedExercises demoDB "alice" (fromQ.getD 0) (toQ.getD 50)).length
            log) ∧
        ∀ entry ∈ log,
          ∃ e ∈ matchedExercises demoDB "alice" (fromQ.getD 0) (toQ.getD 50),
            entry = logEntryOf e :=
  exercise_id_not_exposed demoDB 1 demoUser "run" 30 none 50
    (by unfold dbWf; exact ⟨by decide, by decide⟩) rfl

end ExerciseTracker
